import Mathlib

/-!
Verification of the gnmi-exporter core against its specification.

Shallow embedding of the relevant Python modules:
  src/gnmi_client/utils.py      (xpath parsing)
  src/common_types.py           (metric data types)
  src/plugins/base_plug.py      (plugin buffering, sync flag, checkout)
  src/plugins/oc_interfaces/oc_if.py (openconfig-interfaces render)
  src/exporter/promexp.py       (collector merge and self-statistics)
  src/gnmi_client/client.py     (capability check / encoding selection)

Python dicts are embedded as insertion-ordered association lists
(assignment updates the value in place, a new key is appended at the end),
Python lists as Lean lists, machine integers as Int / Nat, and fallible
operations (regex mismatch, int() casts) return Except / Option.
-/

set_option maxRecDepth 4000

namespace GnmiExporter

/-! ## Python dict embedding: insertion-ordered association lists -/

/-- Lookup of a key in an insertion-ordered association list
(Python dict read access). -/
def assocLookup (k : String) : List (String × β) → Option β
  | [] => none
  | (k2, v) :: rest => if k2 = k then some v else assocLookup k rest

/-- Python dict assignment d[k] = v: update in place when the key exists,
append at the end otherwise. -/
def dictSet (k : String) (v : β) : List (String × β) → List (String × β)
  | [] => [(k, v)]
  | (k2, v2) :: rest => if k2 = k then (k2, v) :: rest else (k2, v2) :: dictSet k v rest

/-! ## src/gnmi_client/utils.py -/

/-- A gNMI PathElem: a name plus a string-to-string key map. -/
structure PathElem where
  name : String
  key : List (String × String)
  deriving Repr, DecidableEq

/-- A gNMI Path as produced by xpath_to_gnmi. -/
structure GnmiPath where
  elem : List PathElem
  origin : String
  target : Option String
  deriving Repr, DecidableEq

/-- Python regex \w on a character (ASCII range; the repository only
feeds ASCII xpaths). -/
def isWordChar (c : Char) : Bool := c.isAlphanum || c = '_'

/-- Scanner for the zero-width lookahead of the component-splitting regex
in xpath_to_gnmi: the remainder of the string must be a sequence of
non-bracket characters and complete non-empty bracket groups.
First flag: currently inside a bracket group; second flag: the current
bracket group already has at least one content character. -/
def lookaheadOk : Bool → Bool → List Char → Bool
  | false, _, [] => true
  | true, _, [] => false
  | false, _, c :: rest =>
    if c = ']' then false
    else if c = '[' then lookaheadOk true false rest
    else lookaheadOk false false rest
  | true, seen, c :: rest =>
    if c = ']' then seen && lookaheadOk false false rest
    else if c = '[' then false
    else lookaheadOk true true rest

/-- re.split of the xpath on a slash whose remainder passes the
bracket lookahead (the slashes at bracket depth zero). -/
def bracketSplitAux (acc : List Char) : List Char → List (List Char)
  | [] => [acc.reverse]
  | c :: rest =>
    if c = '/' ∧ lookaheadOk false false rest
    then acc.reverse :: bracketSplitAux [] rest
    else bracketSplitAux (c :: acc) rest

/-- Bracket-aware splitting of the stripped xpath into components. -/
def bracketSplit (s : List Char) : List (List Char) := bracketSplitAux [] s

/-- Python str.strip applied with the slash character: remove all leading
and trailing slashes. -/
def stripSlashes (s : List Char) : List Char :=
  ((s.dropWhile (fun c => c = '/')).reverse.dropWhile (fun c => c = '/')).reverse

/-- Success of the bracketed part of _RE_PATH_COMPONENT against the text
after the component name. The group matches an opening bracket, a key of
shape word-character followed by one or more non-digits, an equals sign, an
arbitrary (newline-free) value, and a closing bracket that ends the word.
The body is the text strictly between the outer brackets; the match
succeeds when some equals sign at index two or more has only non-digits
before it (past the leading word character) and no newline after it. -/
def keyBodyOk (body : List Char) : Bool :=
  match body with
  | [] => false
  | c0 :: _ =>
    isWordChar c0 &&
      (List.range body.length).any (fun i =>
        decide (2 ≤ i) && (body.getD i ' ' = '=')
          && ((body.drop 1).take (i - 1)).all (fun c => !c.isDigit)
          && ((body.drop (i + 1)).all (fun c => c ≠ '\n')))

/-- Result of matching one xpath component against _RE_PATH_COMPONENT:
the name group and whether the optional key group matched. -/
structure ComponentMatch where
  pname : List Char
  hasKey : Bool
  deriving Repr, DecidableEq

/-- _RE_PATH_COMPONENT.search on one component. The name group is the
non-empty run of non-bracket characters at the start; the optional key
group must then cover the whole remainder of the component. -/
def matchComponent (w : List Char) : Option ComponentMatch :=
  let pname := w.takeWhile (fun c => c ≠ '[')
  if pname = [] then none
  else
    match w.drop pname.length with
    | [] => some { pname := pname, hasKey := false }
    | _ :: s =>
      -- the remainder starts with an opening bracket
      match s.reverse with
      | [] => none
      | last :: revBody =>
        if last = ']' ∧ keyBodyOk revBody.reverse
        then some { pname := pname, hasKey := true }
        else none

/-- One-pass scanner for re.findall of the bracket-fragment pattern:
outside a group an opening bracket starts collecting, inside a group a
closing bracket emits the collected (reversed) content; an unfinished
group at the end of the input emits nothing. -/
def findallBracketsAux : Bool → List Char → List Char → List (List Char)
  | _, _, [] => []
  | false, _, c :: rest =>
    if c = '[' then findallBracketsAux true [] rest
    else findallBracketsAux false [] rest
  | true, content, c :: rest =>
    if c = ']' then content.reverse :: findallBracketsAux false [] rest
    else findallBracketsAux true (c :: content) rest

/-- re.findall of the bracket-fragment pattern over a component: all
non-overlapping bracket groups whose content is free of closing brackets. -/
def findallBrackets (l : List Char) : List (List Char) :=
  findallBracketsAux false [] l

/-- Python x.split(sep)[0]: the text before the first equals sign
(the whole text when there is none). -/
def beforeFirstEq (x : List Char) : List Char := x.takeWhile (fun c => c ≠ '=')

/-- Python x.split(sep)[-1]: the text after the last equals sign
(the whole text when there is none). -/
def afterLastEq (x : List Char) : List Char :=
  (x.reverse.takeWhile (fun c => c ≠ '=')).reverse

/-- The body of the keyed branch of xpath_to_gnmi: for each bracket
fragment the key map is extended and a PathElem is appended. The append
sits inside the fragment loop exactly as in the source. -/
def keyedElems (pname : List Char) (fragments : List (List Char)) : List PathElem :=
  go fragments []
where
  go : List (List Char) → List (String × String) → List PathElem
    | [], _ => []
    | x :: rest, tmpKey =>
      let tmpKey := dictSet ⟨beforeFirstEq x⟩ (⟨afterLastEq x⟩ : String) tmpKey
      { name := ⟨pname⟩, key := tmpKey } :: go rest tmpKey

/-- utils.xpath_to_gnmi. Parses an xpath string into a GnmiPath, raising
XpathError (embedded as Except.error) on a blank xpath or a component the
component regex rejects. -/
def xpath_to_gnmi (xpath : String) (origin : String := "openconfig")
    (target : Option String := none) : Except String GnmiPath :=
  if xpath = "" ∨ xpath = "/" then .error "a blank xpath was provided."
  else do
    let pNames := bracketSplit (stripSlashes xpath.data)
    let elems ← pNames.foldlM (fun (acc : List PathElem) word => do
      match matchComponent word with
      | none => .error "xpath component parse error"
      | some m =>
        if m.hasKey then
          pure (acc ++ keyedElems m.pname (findallBrackets word))
        else
          pure (acc ++ [{ name := ⟨word⟩, key := [] }])) []
    pure { elem := elems, origin := origin, target := target }

/-- The component count named by the specification: the number of
slash-separated components of the xpath after stripping one leading and
one trailing slash, splitting bracket-aware. Follows the wording of the
spec, for comparison with xpath_to_gnmi. -/
def specComponentCount (xpath : String) : Nat :=
  let s := xpath.data
  let s := if s.head? = some '/' then s.drop 1 else s
  let s := if s.getLast? = some '/' then s.dropLast else s
  (bracketSplit s).length

/-! ## src/common_types.py -/

/-- Dynamic Python scalars: the TypedValue variants the plugins consume
(string, int, uint and bool cases of the gNMI oneof). -/
inductive PyVal where
  | str (s : String)
  | int (n : Int)
  | uint (n : Nat)
  | bool (b : Bool)
  deriving Repr, DecidableEq

/-- Python str() on a scalar. -/
def pyStr : PyVal → String
  | .str s => s
  | .int n => toString n
  | .uint n => toString n
  | .bool b => if b then "True" else "False"

/-- Python str.startswith, evaluated on the character lists (the byte
comparison of the library function, made structural). -/
def strStartsWith (s pre : String) : Bool := List.isPrefixOf pre.data s.data

/-- The whitespace strip of Python int() on strings, evaluated on the
character lists. -/
def strTrim (s : String) : String :=
  ⟨((s.data.dropWhile Char.isWhitespace).reverse.dropWhile Char.isWhitespace).reverse⟩

/-- Interpret a run of decimal digits. -/
def digitsToNat (ds : List Char) : Nat :=
  ds.foldl (fun n c => 10 * n + (c.toNat - '0'.toNat)) 0

/-- Python int() on a string: optional surrounding whitespace, optional
sign, then a non-empty run of digits; anything else raises ValueError. -/
def parsePyInt (s : String) : Option Int :=
  match (strTrim s).data with
  | '-' :: ds => if ds ≠ [] ∧ ds.all Char.isDigit then some (-(digitsToNat ds : Int)) else none
  | '+' :: ds => if ds ≠ [] ∧ ds.all Char.isDigit then some (digitsToNat ds) else none
  | ds => if ds ≠ [] ∧ ds.all Char.isDigit then some (digitsToNat ds) else none

/-- Python int() on a scalar: none embeds a raised ValueError. -/
def pyInt : PyVal → Option Int
  | .str s => parsePyInt s
  | .int n => some n
  | .uint n => some n
  | .bool b => some (if b then 1 else 0)

/-- common_types.GnmiMetricType. -/
inductive GnmiMetricType where
  | UNKNOWN
  | COUNTER
  | GAUGE
  deriving Repr, DecidableEq

/-- common_types.GnmiMetric. Label values and the value are dynamic in
Python; label values are strings in every code path, the value stays a
scalar. -/
structure GnmiMetric where
  labelval : List String := []
  val : PyVal := .int 0
  ts : Int := 0
  deriving Repr, DecidableEq

/-- common_types.GnmiMetricBundle. -/
structure GnmiMetricBundle where
  type : GnmiMetricType := .UNKNOWN
  device_name : String := ""
  metric_name : String := ""
  documentation : String := ""
  labelset : List String := []
  metrics : List GnmiMetric := []
  deriving Repr, DecidableEq

/-- GnmiMetricBundle.is_valid. -/
def GnmiMetricBundle.is_valid (b : GnmiMetricBundle) : Bool :=
  if b.device_name = "" ∨ b.metric_name = "" ∨ b.type = .UNKNOWN then false
  else b.metrics.all (fun mt => mt.labelval.length = b.labelset.length)

/-! ## src/plugins/base_plug.py -/

/-- A gNMI Update message inside a Notification: a path, a typed value
and the duplicates counter. -/
structure NfUpdate where
  path : GnmiPath
  val : PyVal
  duplicates : Nat := 0
  deriving Repr, DecidableEq

/-- A gNMI Notification as routed to the plugins. -/
structure Notification where
  timestamp : Int
  atomic : Bool := false
  pfx : GnmiPath
  update : List NfUpdate := []
  delete : List GnmiPath := []
  deriving Repr, DecidableEq

/-- _GnmiMessage.scan_gnmi_path: append the names and the key maps of a
gNMI path to the flattened path of a message. -/
def scanNames (p : GnmiPath) : List String := p.elem.map (fun pe => pe.name)

def scanKeys (p : GnmiPath) : List (List (String × String)) :=
  p.elem.map (fun pe => pe.key)

/-- GnmiUpdate: a notification flattened together with one of its update
messages (prefix path followed by the update path). -/
structure GnmiUpdate where
  timestamp : Int
  atomic : Bool
  path : List String
  path_keys : List (List (String × String))
  val : Option PyVal
  duplicates : Nat
  deriving Repr, DecidableEq

/-- GnmiDelete: a notification flattened together with one of its delete
paths. -/
structure GnmiDelete where
  timestamp : Int
  atomic : Bool
  path : List String
  path_keys : List (List (String × String))
  deriving Repr, DecidableEq

/-- GnmiUpdate.new_upd_msg applied to the base message of a notification. -/
def mkUpdate (nf : Notification) (u : NfUpdate) : GnmiUpdate :=
  { timestamp := nf.timestamp
    atomic := nf.atomic
    path := scanNames nf.pfx ++ scanNames u.path
    path_keys := scanKeys nf.pfx ++ scanKeys u.path
    val := some u.val
    duplicates := u.duplicates }

/-- GnmiDelete.new_del_msg applied to the base message of a notification. -/
def mkDelete (nf : Notification) (d : GnmiPath) : GnmiDelete :=
  { timestamp := nf.timestamp
    atomic := nf.atomic
    path := scanNames nf.pfx ++ scanNames d
    path_keys := scanKeys nf.pfx ++ scanKeys d }

/-- _GnmiMessage.get_path_key: the named key of the path element at the
given index, degrading to the not_available sentinel when the element or
the key is missing. -/
def GnmiUpdate.get_path_key (m : GnmiUpdate) (index : Nat) (name : String) : String :=
  match m.path_keys.get? index with
  | none => "not_available"
  | some d =>
    match assocLookup name d with
    | none => "not_available"
    | some v => v

/-- The mutable state of a BasePlugin: the mutex-guarded notification
buffer, the sync flag and the two rendered scratch lists. -/
structure PluginState where
  buffer : List Notification := []
  on_sync : Bool := false
  update_list : List GnmiUpdate := []
  delete_list : List GnmiDelete := []
  deriving Repr, DecidableEq

/-- BasePlugin.gnmi_notification_handler: append to the buffer. -/
def gnmi_notification_handler (st : PluginState) (msg : Notification) : PluginState :=
  { st with buffer := st.buffer ++ [msg] }

/-- BasePlugin.set_sync_status: clear the buffer on the true-to-false
transition, then update the flag. -/
def set_sync_status (st : PluginState) (on_sync : Bool) : PluginState :=
  { st with
    buffer := if !on_sync && st.on_sync then [] else st.buffer
    on_sync := on_sync }

/-- The notifications drained by checkout: the whole buffer when the
plugin is on sync, nothing otherwise. -/
def drainedBuffer (st : PluginState) : List Notification :=
  if st.on_sync then st.buffer else []

/-- Expansion of a notification list into update messages, in buffer
order and per-notification update order. -/
def expandUpdates (nfs : List Notification) : List GnmiUpdate :=
  (nfs.map (fun nf => nf.update.map (mkUpdate nf))).flatten

/-- Expansion of a notification list into delete messages. -/
def expandDeletes (nfs : List Notification) : List GnmiDelete :=
  (nfs.map (fun nf => nf.delete.map (mkDelete nf))).flatten

/-- BasePlugin.checkout: clear the scratch lists, drain the buffer when on
sync, expand the notifications and stable-sort both lists by timestamp
(Python list.sort is a stable sort; embedded as the stable insertion
sort). -/
def checkout (st : PluginState) : PluginState :=
  let nf_buf := drainedBuffer st
  { st with
    buffer := if st.on_sync then [] else st.buffer
    update_list := (expandUpdates nf_buf).insertionSort
      (fun a b => a.timestamp ≤ b.timestamp)
    delete_list := (expandDeletes nf_buf).insertionSort
      (fun a b => a.timestamp ≤ b.timestamp) }

/-! ## src/plugins/oc_interfaces/oc_if.py -/

/-- The data model name constant of the plugin. -/
def dataModel : String := "openconfig-interfaces"

def pluginLabelSet : List String := ["instance-name", "data-model", "device"]

def subifaceLabelSet : List String :=
  ["name", "index", "mtu", "description", "ifindex", "admin-status", "oper-status"]

def subifaceMetricSet : List String :=
  ["in-octets", "in-pkts", "in-unicast-pkts", "in-broadcast-pkts",
   "in-multicast-pkts", "in-errors", "in-discards", "out-octets", "out-pkts",
   "out-unicast-pkts", "out-broadcast-pkts", "out-multicast-pkts", "out-discards",
   "out-errors", "last-clear", "last-change", "in-unknown-protos", "in-fcs-errors",
   "carrier-transitions"]

def ifaceLabelSet : List String :=
  ["name", "mtu", "description", "ifindex", "admin-status", "oper-status"]

def ifaceMetricSet : List String := subifaceMetricSet ++ ["resets"]

/-- A table entry value: a label string or a counter integer
(heterogeneous Python dict values). -/
abbrev EntryVal := PyVal

/-- IfaceTable: interface full name to entry name to value, both levels
insertion-ordered dicts. -/
abbrev IfaceTable := List (String × List (String × EntryVal))

/-- IfaceTable.add_table_entry: do nothing when the interface exists,
otherwise create the skeleton record: a name entry, every template label
as an empty string, every template metric as zero. -/
def addTableEntry (t : IfaceTable) (if_full_name : String)
    (label_tpl metric_tpl : List String) : IfaceTable :=
  if (assocLookup if_full_name t).isSome then t
  else
    let rec0 := dictSet "name" (PyVal.str "") []
    let rec1 := label_tpl.foldl (fun r label => dictSet label (PyVal.str "") r) rec0
    let rec2 := metric_tpl.foldl (fun r metric => dictSet metric (PyVal.int 0) r) rec1
    t ++ [(if_full_name, rec2)]

/-- IfaceTable.update_table_entry: set the entry when the interface row
exists; a missing row raises KeyError which is caught and logged. -/
def updateTableEntry (t : IfaceTable) (if_full_name entry_name : String)
    (entry_val : EntryVal) : IfaceTable :=
  match assocLookup if_full_name t with
  | none => t
  | some innerDict => dictSet if_full_name (dictSet entry_name entry_val innerDict) t

/-- IfaceTable.items: iteration over interface names in insertion order. -/
def tableItems (t : IfaceTable) : List String := t.map (fun p => p.1)

/-- IfaceTable.get_entry: the stored value, or a single-space string when
the interface or the entry is missing (KeyError path). -/
def getEntry (t : IfaceTable) (if_name entry_name : String) : EntryVal :=
  match assocLookup if_name t with
  | none => .str " "
  | some innerDict =>
    match assocLookup entry_name innerDict with
    | none => .str " "
    | some v => v

/-- MetricTable: metric name to list of metrics. -/
abbrev MetricTable := List (String × List GnmiMetric)

/-- MetricTable.add_metric: create the list on first use, append after. -/
def addMetric (t : MetricTable) (name : String) (metric : GnmiMetric) : MetricTable :=
  match assocLookup name t with
  | none => t ++ [(name, [metric])]
  | some l => dictSet name (l ++ [metric]) t

/-- MetricTable.get_metrics: the stored list, or a single default
GnmiMetric when the name is missing (KeyError path of the generator). -/
def getMetrics (t : MetricTable) (name : String) : List GnmiMetric :=
  match assocLookup name t with
  | none => [{}]
  | some l => l

/-- The configuration fields of _BasePluginConfig the render reads. -/
structure PluginConfig where
  instance_name : String := "default"
  dev_name : String := "default"
  metric_pfx : String := "gnmi"
  deriving Repr, DecidableEq

/-- The state of one OcInterfaces plugin: the base plugin state plus the
interface, subinterface and metric tables and the output bundle list. -/
structure OcState where
  base : PluginState := {}
  iface_table : IfaceTable := []
  subiface_table : IfaceTable := []
  iface_metrics_table : MetricTable := []
  subiface_metrics_table : MetricTable := []
  bundle_list : List GnmiMetricBundle := []
  deriving Repr, DecidableEq

/-- OcInterfaces.clear_all_tables. -/
def clear_all_tables (st : OcState) : OcState :=
  { st with
    iface_table := []
    subiface_table := []
    iface_metrics_table := []
    subiface_metrics_table := []
    bundle_list := [] }

/-- Python str() of the optional update value (None prints as None). -/
def pyStrOpt : Option PyVal → String
  | none => "None"
  | some v => pyStr v

/-- Python int() of the optional update value (None raises TypeError). -/
def pyIntOpt : Option PyVal → Option Int
  | none => none
  | some v => pyInt v

/-- OcInterfaces.build_tables: scan the update list for interface and
subinterface name leaves and create the table skeletons. The path match
is a full match of the joined path names. -/
def build_tables (upds : List GnmiUpdate) (itab stab : IfaceTable) :
    IfaceTable × IfaceTable :=
  upds.foldl (fun (tabs : IfaceTable × IfaceTable) update =>
    let (it, st) := tabs
    let path_str := String.join update.path
    let it :=
      if path_str = "interfacesinterfacestatename" then
        addTableEntry it (update.get_path_key 1 "name") ifaceLabelSet ifaceMetricSet
      else it
    let st :=
      if path_str = "interfacesinterfacesubinterfacessubinterfacestatename" then
        let fullname :=
          String.join [update.get_path_key 1 "name", ".", update.get_path_key 3 "index"]
        addTableEntry st fullname subifaceLabelSet subifaceMetricSet
      else st
    (it, st)) (itab, stab)

/-- One step of OcInterfaces.update_tables on a single update message.
none embeds an uncaught ValueError from int() on a metric leaf. The two
re.match branches of the source have disjoint path spaces
(interfacesinterfacestate... versus interfacesinterfacesubinterfaces...),
so the continue in the first branch is equivalent to an else chain. -/
def updateTablesStep (tabs : IfaceTable × IfaceTable) (update : GnmiUpdate) :
    Option (IfaceTable × IfaceTable) :=
  let (it, st) := tabs
  let path_str := String.join update.path
  let leaf := update.path.getLastD ""
  if strStartsWith path_str "interfacesinterfacestate" then
    if leaf ∈ ifaceLabelSet then
      some (updateTableEntry it (update.get_path_key 1 "name") leaf (.str (pyStrOpt update.val)), st)
    else if leaf ∈ ifaceMetricSet then
      match pyIntOpt update.val with
      | some v => some (updateTableEntry it (update.get_path_key 1 "name") leaf (.int v), st)
      | none => none
    else some (it, st)
  else if strStartsWith path_str "interfacesinterfacesubinterfacessubinterfacestate" then
    let ifl := String.join [update.get_path_key 1 "name", ".", update.get_path_key 3 "index"]
    if leaf ∈ subifaceLabelSet then
      let value :=
        if leaf = "name" then update.get_path_key 1 "name" else pyStrOpt update.val
      some (it, updateTableEntry st ifl leaf (.str value))
    else if leaf ∈ subifaceMetricSet then
      match pyIntOpt update.val with
      | some v => some (it, updateTableEntry st ifl leaf (.int v))
      | none => none
    else some (it, st)
  else some (it, st)

/-- OcInterfaces.update_tables over the whole update list. -/
def update_tables (upds : List GnmiUpdate) (tabs : IfaceTable × IfaceTable) :
    Option (IfaceTable × IfaceTable) :=
  upds.foldlM updateTablesStep tabs

/-- OcInterfaces.build_metrics for one interface table: one metric per
metric name and interface, label values headed by the plugin labels. -/
def buildMetricsFor (cfg : PluginConfig) (now : Int) (tab : IfaceTable)
    (labelSet metricSet : List String) : MetricTable :=
  metricSet.foldl (fun mt metric =>
    (tableItems tab).foldl (fun mt iface =>
      let lv := [cfg.instance_name, dataModel, cfg.dev_name]
        ++ labelSet.map (fun label => pyStr (getEntry tab iface label))
      addMetric mt metric
        { labelval := lv, val := getEntry tab iface metric, ts := now }) mt) []

/-- Python str.replace applied with a hyphen and an underscore. -/
def replaceDash (s : String) : String :=
  ⟨s.data.map (fun c => if c = '-' then '_' else c)⟩

/-- OcInterfaces.build_bundle_list for one table kind. -/
def buildBundlesFor (cfg : PluginConfig) (mt : MetricTable) (midPart : String)
    (labelBase metricSet : List String) : List GnmiMetricBundle :=
  let label_set := (pluginLabelSet ++ labelBase).map replaceDash
  metricSet.map (fun name =>
    { type := .COUNTER
      device_name := cfg.dev_name
      metric_name := String.join [cfg.metric_pfx, midPart, replaceDash name]
      documentation := ""
      labelset := label_set
      metrics := getMetrics mt name })

/-- OcInterfaces.fetch_metric_bundles: clear the tables, checkout, return
empty on an empty update list, otherwise build the tables, update them
(which can raise on a bad int() cast, embedded as none), then build the
metric tables and the bundle list. -/
def fetch_metric_bundles (cfg : PluginConfig) (now : Int) (st : OcState) :
    Option (List GnmiMetricBundle × OcState) :=
  let st := clear_all_tables st
  let st := { st with base := checkout st.base }
  if st.base.update_list = [] then some ([], st)
  else
    let tabs := build_tables st.base.update_list st.iface_table st.subiface_table
    match update_tables st.base.update_list tabs with
    | none => none
    | some tabs2 =>
      let imt := buildMetricsFor cfg now tabs2.1 ifaceLabelSet ifaceMetricSet
      let smt := buildMetricsFor cfg now tabs2.2 subifaceLabelSet subifaceMetricSet
      let bl := buildBundlesFor cfg imt "_iface_" ifaceLabelSet ifaceMetricSet
        ++ buildBundlesFor cfg smt "_subiface_" subifaceLabelSet subifaceMetricSet
      some (bl, { st with
        iface_table := tabs2.1
        subiface_table := tabs2.2
        iface_metrics_table := imt
        subiface_metrics_table := smt
        bundle_list := bl })

/-! ## src/exporter/promexp.py -/

/-- The configuration fields of _PromClientConfig the collector reads. -/
structure PromConfig where
  instance_name : String := "default"
  metric_pfx : String := "gnmi"
  deriving Repr, DecidableEq

/-- The mutable state of PromClient: the registered plugin list (plugin
references identified here by a name), the per-scrape bundle table
and the two self-statistic counters. -/
structure CollectorState where
  plugin_list : List String := []
  bundle_table : List (String × GnmiMetricBundle) := []
  collected_devices : Nat := 0
  collected_plugins : Nat := 0
  deriving Repr, DecidableEq

/-- PromClient.register_plugin: append to the plugin list. -/
def register_plugin (st : CollectorState) (plug : String) : CollectorState :=
  { st with plugin_list := st.plugin_list ++ [plug] }

/-- The per-bundle merge of _query_plugins: a fresh metric name inserts
the bundle, an existing one extends the metrics of the stored bundle. -/
def tableAdd (t : List (String × GnmiMetricBundle)) (b : GnmiMetricBundle) :
    List (String × GnmiMetricBundle) :=
  match assocLookup b.metric_name t with
  | none => t ++ [(b.metric_name, b)]
  | some e => dictSet b.metric_name { e with metrics := e.metrics ++ b.metrics } t

/-- Python set.add on the device-name set, embedded as a duplicate-free
list whose length is the set cardinality. -/
def setAdd (s : List String) (x : String) : List String :=
  if x ∈ s then s else s ++ [x]

/-- The body of the per-plugin bundle loop of _query_plugins: valid
bundles record their device name and are merged into the table. -/
def processBundle (acc : List String × List (String × GnmiMetricBundle))
    (b : GnmiMetricBundle) : List String × List (String × GnmiMetricBundle) :=
  if b.is_valid then (setAdd acc.1 b.device_name, tableAdd acc.2 b) else acc

/-- The acceptance test of _query_plugins on one plugin response: a
non-empty list whose first bundle is valid. -/
def pluginAccepted (resp : List GnmiMetricBundle) : Bool :=
  resp ≠ [] && (resp.headD {}).is_valid

/-- One iteration of the response loop of _query_plugins. -/
def queryStep (st : CollectorState) (resp : List GnmiMetricBundle) : CollectorState :=
  if pluginAccepted resp then
    let st := { st with collected_plugins := st.collected_plugins + 1 }
    let dt := resp.foldl processBundle ([], st.bundle_table)
    { st with bundle_table := dt.2, collected_devices := dt.1.length }
  else st

/-- PromClient._query_plugins on the joined plugin responses: reset both
counters, then process every response in order. -/
def query_plugins (st : CollectorState) (responses : List (List GnmiMetricBundle)) :
    CollectorState :=
  responses.foldl queryStep { st with collected_plugins := 0, collected_devices := 0 }

/-- The claim-side notion of the accepted valid bundles of a scrape: the
valid bundles of every response passing the acceptance test, in response
order. -/
def acceptedValidBundles (responses : List (List GnmiMetricBundle)) :
    List GnmiMetricBundle :=
  ((responses.filter pluginAccepted).map (fun resp => resp.filter (fun b => b.is_valid))).flatten

/-- A single-metric self-statistic gauge bundle. -/
def statGauge (cfg : PromConfig) (name doc : String) (v : Int) (now : Int) :
    GnmiMetricBundle :=
  { type := .GAUGE
    metric_name := cfg.metric_pfx ++ name
    documentation := doc
    labelset := ["instance_name"]
    metrics := [{ labelval := [cfg.instance_name], val := .int v, ts := now }] }

/-- PromClient._compute_stats: insert the five self-statistic gauges into
the bundle table under their short keys, in source order; the collected
metrics count is taken after the first three inserts, the collected
series count after the fourth. -/
def compute_stats (cfg : PromConfig) (now : Int) (st : CollectorState) : CollectorState :=
  let t := dictSet "configured_devices"
    (statGauge cfg "_configured_devices" "Number of configured devices"
      st.plugin_list.length now) st.bundle_table
  let t := dictSet "collected_devices"
    (statGauge cfg "_collected_devices" "Number of actively monitored devices"
      st.collected_devices now) t
  let t := dictSet "collected_plugins"
    (statGauge cfg "_collected_plugins" "Number of actively monitored plugin instances"
      st.collected_plugins now) t
  let t := dictSet "collected_metrics"
    (statGauge cfg "_collected_metrics" "Number of collected metrics"
      (t.length + 1) now) t
  let collected_series : Nat := t.foldl (fun n p => n + p.2.metrics.length) 0
  let t := dictSet "collected_series"
    (statGauge cfg "_collected_series" "Number of collected series"
      collected_series now) t
  { st with bundle_table := t }

/-! ## src/gnmi_client/client.py (capability check: encoding selection) -/

/-- The gNMI encoding enumeration of the client. -/
inductive EncodingType where
  | JSON
  | BYTES
  | PROTO
  | ASCII
  | JSON_IETF
  deriving Repr, DecidableEq

/-- The protobuf value of each encoding. -/
def encValue : EncodingType → Nat
  | .JSON => 0
  | .BYTES => 1
  | .PROTO => 2
  | .ASCII => 3
  | .JSON_IETF => 4

/-- The Python enum name of each encoding. -/
def encName : EncodingType → String
  | .JSON => "JSON"
  | .BYTES => "BYTES"
  | .PROTO => "PROTO"
  | .ASCII => "ASCII"
  | .JSON_IETF => "JSON_IETF"

/-- _PREFERRED_ENCODINGS. -/
def preferredEncodings : List EncodingType :=
  [.PROTO, .JSON, .JSON_IETF, .ASCII]

/-- The forced-encoding loop of _check_caps: every preferred encoding
whose name equals the forced name overwrites the selection (no break in
the source; names are distinct so at most one matches). -/
def forceLoop : List EncodingType → EncodingType → String → EncodingType
  | [], selected, _ => selected
  | enc :: rest, selected, force =>
    forceLoop rest (if encName enc = force then enc else selected) force

/-- The preferred-encoding loop of _check_caps: the first preferred
encoding whose value the device supports, the previous selection
otherwise (the loop breaks on the first hit). -/
def preferredLoop : List EncodingType → EncodingType → List Nat → EncodingType
  | [], selected, _ => selected
  | enc :: rest, selected, supported =>
    if encValue enc ∈ supported then enc
    else preferredLoop rest selected supported

/-- The encoding-selection step of GnmiClient._check_caps, taking the
currently selected encoding (JSON at construction) and the
supported_encodings list of the capability response. A non-empty
force_encoding string is truthy in Python. -/
def checkCapsEncoding (force : String) (selected : EncodingType)
    (supported : List Nat) : EncodingType :=
  if force ≠ "" then forceLoop preferredEncodings selected force
  else preferredLoop preferredEncodings selected supported

/-! ## Helper lemmas on the dict embedding -/

theorem assocLookup_dictSet_self (k : String) (v : β) (t : List (String × β)) :
    assocLookup k (dictSet k v t) = some v := by
  induction t with
  | nil => simp [dictSet, assocLookup]
  | cons p rest ih =>
    by_cases h : p.1 = k
    · simp [dictSet, assocLookup, h]
    · simp [dictSet, assocLookup, h, ih]

theorem assocLookup_dictSet_ne (k k2 : String) (v : β) (t : List (String × β))
    (h : k2 ≠ k) : assocLookup k (dictSet k2 v t) = assocLookup k t := by
  induction t with
  | nil => simp [dictSet, assocLookup, h]
  | cons p rest ih =>
    by_cases hp : p.1 = k2
    · simp [dictSet, assocLookup, hp, h]
    · simp only [dictSet, if_neg hp]
      by_cases hk : p.1 = k
      · simp [assocLookup, hk]
      · simp [assocLookup, hk, ih]

theorem assocLookup_append_some (k : String) (v : β) (t l : List (String × β))
    (h : assocLookup k t = some v) : assocLookup k (t ++ l) = some v := by
  induction t with
  | nil => simp [assocLookup] at h
  | cons p rest ih =>
    by_cases hp : p.1 = k
    · simp [assocLookup, hp] at h ⊢; exact h
    · simp [assocLookup, hp] at h ⊢; exact ih h

theorem assocLookup_append_none (k : String) (t l : List (String × β))
    (h : assocLookup k t = none) : assocLookup k (t ++ l) = assocLookup k l := by
  induction t with
  | nil => simp
  | cons p rest ih =>
    by_cases hp : p.1 = k
    · simp [assocLookup, hp] at h
    · simp [assocLookup, hp] at h ⊢; exact ih h

/-! ## C1 -/

/-- A sanity check of the xpath embedding on the literal end-to-end
scenario of the specification: a single-key component parses into one
element carrying its key. -/
theorem xpath_single_key_scenario :
    xpath_to_gnmi "/interfaces/interface[name=eth0]/state/counters" "openconfig" none
      = .ok
        { elem := [
            { name := "interfaces", key := [] },
            { name := "interface", key := [("name", "eth0")] },
            { name := "state", key := [] },
            { name := "counters", key := [] } ]
          origin := "openconfig"
          target := none } := by
  rfl

/-- C1: the claim states that for a well-formed xpath the element count
equals the bracket-aware component count and that a component with
several key fragments yields a single element holding all pairs. The
element append of xpath_to_gnmi sits inside the fragment loop, so the
two-key component of the failing input produces two elements, the first
holding only the first pair: three elements against two components. -/
theorem c1_multi_key_component_extra_elements :
    (xpath_to_gnmi "/a[kx=vx][ky=vy]/b" "openconfig" none).map (fun p => p.elem.length)
        = .ok 3
    ∧ specComponentCount "/a[kx=vx][ky=vy]/b" = 2
    ∧ (xpath_to_gnmi "/a[kx=vx][ky=vy]/b" "openconfig" none).map (fun p => p.elem)
        = .ok [
            { name := "a", key := [("kx", "vx")] },
            { name := "a", key := [("kx", "vx"), ("ky", "vy")] },
            { name := "b", key := [] } ] := by
  exact ⟨rfl, rfl, rfl⟩

/-! ## C5 -/

/-- C5: set_sync_status clears the notification buffer exactly on the
on-sync-to-desync transition; every other transition leaves the buffer
and the scratch lists unchanged and only updates the flag. -/
theorem c5_set_sync_status_clears_only_on_desync (st : PluginState) (b : Bool) :
    (set_sync_status st b).on_sync = b
    ∧ (st.on_sync = true → b = false → (set_sync_status st b).buffer = [])
    ∧ (st.on_sync = false ∨ b = true → (set_sync_status st b).buffer = st.buffer)
    ∧ (set_sync_status st b).update_list = st.update_list
    ∧ (set_sync_status st b).delete_list = st.delete_list := by
  refine ⟨rfl, ?_, ?_, rfl, rfl⟩
  · intro h1 h2
    simp [set_sync_status, h1, h2]
  · intro h
    cases h with
    | inl h => simp [set_sync_status, h]
    | inr h => simp [set_sync_status, h]

def nfPlain : Notification :=
  { timestamp := 1
    pfx := { elem := [], origin := "", target := none } }

def stSynced : PluginState := { buffer := [nfPlain], on_sync := true }

theorem c5_witness :
    (set_sync_status stSynced false).buffer = []
    ∧ (set_sync_status stSynced true).buffer = stSynced.buffer :=
  ⟨(c5_set_sync_status_clears_only_on_desync stSynced false).2.1 rfl rfl,
   (c5_set_sync_status_clears_only_on_desync stSynced true).2.2.1 (Or.inr rfl)⟩

/-! ## C7 -/

theorem preferredLoop_eq_find (l : List EncodingType) (sel : EncodingType)
    (sup : List Nat) :
    preferredLoop l sel sup = (l.find? (fun enc => encValue enc ∈ sup)).getD sel := by
  induction l with
  | nil => rfl
  | cons e rest ih =>
    by_cases h : encValue e ∈ sup
    · simp [preferredLoop, List.find?, h]
    · simp [preferredLoop, List.find?, h, ih]

/-- C7: with no forced encoding, starting from the JSON selection of the
constructor, the capability check selects the first encoding of the
preferred order whose value the device supports, and keeps JSON when no
preferred encoding is supported. -/
theorem c7_encoding_selection (force : String) (supported : List Nat)
    (hf : force = "") :
    checkCapsEncoding force .JSON supported
        = (preferredEncodings.find? (fun enc => encValue enc ∈ supported)).getD .JSON
    ∧ ((∀ enc ∈ preferredEncodings, encValue enc ∉ supported) →
        checkCapsEncoding force .JSON supported = .JSON) := by
  subst hf
  have hbranch : checkCapsEncoding "" .JSON supported
      = preferredLoop preferredEncodings .JSON supported := by
    simp [checkCapsEncoding]
  constructor
  · rw [hbranch, preferredLoop_eq_find]
  · intro hnone
    rw [hbranch, preferredLoop_eq_find]
    have : preferredEncodings.find? (fun enc => encValue enc ∈ supported) = none := by
      rw [List.find?_eq_none]
      intro enc he
      simpa using hnone enc he
    rw [this]
    rfl

/-- The literal encoding scenario of the spec: supported encodings JSON
and JSON_IETF, no forcing, selected encoding JSON; and an unsupported
set keeps the JSON default. -/
theorem c7_witness :
    checkCapsEncoding "" .JSON [0, 4] = .JSON
    ∧ checkCapsEncoding "" .JSON [7] = .JSON := by
  have h1 := (c7_encoding_selection "" [0, 4] rfl).1
  have h2 := (c7_encoding_selection "" [7] rfl).2 (by decide)
  exact ⟨by rw [h1]; rfl, h2⟩

/-! ## C9 -/

/-- C9: a notification delivered while the plugin is out of sync is
appended to the buffer anyway; a later on-sync transition does not clear
the buffer, so the notification is part of the first checkout drain after
the plugin is back on sync. -/
theorem c9_out_of_sync_notifications_survive (st : PluginState) (nf : Notification)
    (h : st.on_sync = false) :
    (set_sync_status (gnmi_notification_handler st nf) true).buffer = st.buffer ++ [nf]
    ∧ (set_sync_status (gnmi_notification_handler st nf) true).on_sync = true
    ∧ (checkout (set_sync_status (gnmi_notification_handler st nf) true)).buffer = []
    ∧ (checkout (set_sync_status (gnmi_notification_handler st nf) true)).update_list.Perm
        (expandUpdates (st.buffer ++ [nf]))
    ∧ ∀ u ∈ nf.update,
        mkUpdate nf u ∈
          (checkout (set_sync_status (gnmi_notification_handler st nf) true)).update_list := by
  have hS : set_sync_status (gnmi_notification_handler st nf) true
      = { buffer := st.buffer ++ [nf], on_sync := true,
          update_list := st.update_list, delete_list := st.delete_list } := rfl
  refine ⟨rfl, rfl, rfl, ?_, ?_⟩
  · rw [hS]
    exact List.perm_insertionSort _ _
  · intro u hu
    rw [hS]
    show mkUpdate nf u ∈ (expandUpdates (st.buffer ++ [nf])).insertionSort
      (fun a b => a.timestamp ≤ b.timestamp)
    rw [List.mem_insertionSort]
    simp only [expandUpdates, List.mem_flatten]
    exact ⟨nf.update.map (mkUpdate nf), by simp, List.mem_map_of_mem _ hu⟩

def nfWitness : Notification :=
  { timestamp := 3
    pfx := { elem := [], origin := "", target := none }
    update := [ { path := { elem := [ { name := "up", key := [] } ],
                            origin := "openconfig", target := none }
                  val := .int 4 } ] }

theorem c9_witness :
    (set_sync_status (gnmi_notification_handler {} nfWitness) true).buffer = [nfWitness]
    ∧ mkUpdate nfWitness (nfWitness.update.headD { path := nfWitness.pfx, val := .int 0 }) ∈
        (checkout (set_sync_status (gnmi_notification_handler {} nfWitness) true)).update_list := by
  have h := c9_out_of_sync_notifications_survive {} nfWitness rfl
  exact ⟨h.1, h.2.2.2.2 _ (by simp [nfWitness])⟩

/-! ## C10 -/

theorem register_foldl_plugin_list (plugins : List String) (s : CollectorState) :
    (plugins.foldl register_plugin s).plugin_list = s.plugin_list ++ plugins := by
  induction plugins generalizing s with
  | nil => simp
  | cons x xs ih =>
    rw [List.foldl_cons, ih]
    simp [register_plugin]

theorem replicate_register_length (d : Nat) (x : List String) (s : CollectorState) :
    ((List.replicate d x).foldl (fun s2 plugins => plugins.foldl register_plugin s2)
        s).plugin_list.length
      = s.plugin_list.length + d * x.length := by
  induction d generalizing s with
  | zero => simp
  | succ d ih =>
    rw [List.replicate_succ, List.foldl_cons, ih, register_foldl_plugin_list]
    simp [Nat.succ_mul]
    ring

/-- C10: the configured-devices gauge reports the length of the
registered plugin list, one entry per device-plugin pair; registering d
devices with p plugin instances each makes it report d * p, not d. -/
theorem c10_configured_devices_counts_plugin_instances :
    (∀ (cfg : PromConfig) (now : Int) (st : CollectorState),
      (assocLookup "configured_devices" (compute_stats cfg now st).bundle_table).map
          (fun b => b.metrics.map (fun m => m.val))
        = some [PyVal.int st.plugin_list.length])
    ∧ ∀ d p : Nat,
        ((List.replicate d ((List.range p).map toString)).foldl
            (fun s plugins => plugins.foldl register_plugin s)
            ({} : CollectorState)).plugin_list.length
          = d * p := by
  constructor
  · intro cfg now st
    simp only [compute_stats]
    rw [assocLookup_dictSet_ne _ _ _ _ (by decide),
      assocLookup_dictSet_ne _ _ _ _ (by decide),
      assocLookup_dictSet_ne _ _ _ _ (by decide),
      assocLookup_dictSet_ne _ _ _ _ (by decide),
      assocLookup_dictSet_self]
    rfl
  · intro d p
    rw [replicate_register_length]
    simp

/-! ## C8 -/

/-- A stable key-based sort leaves the subsequence of any fixed key value
unchanged: filtering the merge sort by one key value gives the same list
as filtering the input. -/
theorem insertionSort_filter_key {α : Type _} (key : α → Int) (l : List α) (t : Int) :
    (l.insertionSort (fun a b => key a ≤ key b)).filter (fun m => key m = t)
      = l.filter (fun m => key m = t) := by
  have hperm : ((l.insertionSort (fun a b => key a ≤ key b)).filter
        (fun m => key m = t)).Perm (l.filter (fun m => key m = t)) :=
    (List.perm_insertionSort _ l).filter _
  have hpairwise : (l.filter (fun m => key m = t)).Pairwise
      (fun a b => key a ≤ key b) := by
    apply List.pairwise_of_forall_mem_list
    intro a ha b hb
    have hka : key a = t := by simpa using (List.mem_filter.mp ha).2
    have hkb : key b = t := by simpa using (List.mem_filter.mp hb).2
    simp [hka, hkb]
  have hsub : List.Sublist (l.filter (fun m => key m = t))
      (l.insertionSort (fun a b => key a ≤ key b)) :=
    List.sublist_insertionSort hpairwise (List.filter_sublist l)
  have hsub2 : List.Sublist (l.filter (fun m => key m = t))
      ((l.insertionSort (fun a b => key a ≤ key b)).filter (fun m => key m = t)) := by
    have h2 := hsub.filter (fun m => decide (key m = t))
    have h3 : (l.filter (fun m => key m = t)).filter (fun m => decide (key m = t))
        = l.filter (fun m => key m = t) :=
      List.filter_eq_self.mpr (fun a ha => (List.mem_filter.mp ha).2)
    rwa [h3] at h2
  exact (hsub2.eq_of_length hperm.length_eq.symm).symm

instance : IsTotal GnmiUpdate (fun a b => a.timestamp ≤ b.timestamp) :=
  ⟨fun a b => Int.le_total a.timestamp b.timestamp⟩

instance : IsTrans GnmiUpdate (fun a b => a.timestamp ≤ b.timestamp) :=
  ⟨fun _ _ _ hab hbc => Int.le_trans hab hbc⟩

instance : IsTotal GnmiDelete (fun a b => a.timestamp ≤ b.timestamp) :=
  ⟨fun a b => Int.le_total a.timestamp b.timestamp⟩

instance : IsTrans GnmiDelete (fun a b => a.timestamp ≤ b.timestamp) :=
  ⟨fun _ _ _ hab hbc => Int.le_trans hab hbc⟩

/-- C8: after checkout, the update list and the delete list are sorted
non-decreasing by message timestamp, and the sort is stable: for every
timestamp value, the messages carrying it appear exactly as in the
expansion of the drained buffer. -/
theorem c8_checkout_sorted_and_stable (st : PluginState) :
    ((checkout st).update_list.Pairwise fun a b => a.timestamp ≤ b.timestamp)
    ∧ ((checkout st).delete_list.Pairwise fun a b => a.timestamp ≤ b.timestamp)
    ∧ (∀ t : Int, (checkout st).update_list.filter (fun m => m.timestamp = t)
        = (expandUpdates (drainedBuffer st)).filter (fun m => m.timestamp = t))
    ∧ (∀ t : Int, (checkout st).delete_list.filter (fun m => m.timestamp = t)
        = (expandDeletes (drainedBuffer st)).filter (fun m => m.timestamp = t)) := by
  refine ⟨?_, ?_, ?_, ?_⟩
  · exact List.sorted_insertionSort _ (expandUpdates (drainedBuffer st))
  · exact List.sorted_insertionSort _ (expandDeletes (drainedBuffer st))
  · intro t
    exact insertionSort_filter_key (fun m => m.timestamp) (expandUpdates (drainedBuffer st)) t
  · intro t
    exact insertionSort_filter_key (fun m => m.timestamp) (expandDeletes (drainedBuffer st)) t

/-! ## C2 and C3 -/

/-- The path of the interface name leaf, as it arrives in a notification
update under /interfaces/interface/state. -/
def xpIfaceName : GnmiPath :=
  { elem := [
      { name := "interfaces", key := [] },
      { name := "interface", key := [("name", "eth0")] },
      { name := "state", key := [] },
      { name := "name", key := [] } ]
    origin := "openconfig"
    target := none }

/-- A notification carrying the interface name leaf of eth0. -/
def nfEth0 : Notification :=
  { timestamp := 11
    pfx := { elem := [], origin := "", target := none }
    update := [ { path := xpIfaceName, val := .str "eth0" } ] }

/-- An on-sync OcInterfaces state whose buffer holds one notification. -/
def stBuffered : OcState := { base := { buffer := [nfEth0], on_sync := true } }

/-- After any checkout, a second checkout finds an empty drain and leaves
an empty update list. -/
theorem checkout_checkout_update_list (st : PluginState) :
    (checkout (checkout st)).update_list = [] := by
  by_cases h : st.on_sync
  · simp [checkout, drainedBuffer, h, expandUpdates]
  · simp [checkout, drainedBuffer, h, expandUpdates]

/-- Every successful fetch leaves the base state at the checkout of the
previous base state. -/
theorem fetch_base_eq_checkout (cfg : PluginConfig) (now : Int) (st : OcState)
    (l1 : List GnmiMetricBundle) (st1 : OcState)
    (h : fetch_metric_bundles cfg now st = some (l1, st1)) :
    st1.base = checkout st.base := by
  simp only [fetch_metric_bundles] at h
  split at h
  · simp only [Option.some.injEq, Prod.mk.injEq] at h
    rw [← h.2]
    rfl
  · split at h
    · cases h
    · simp only [Option.some.injEq, Prod.mk.injEq] at h
      rw [← h.2]
      rfl

/-- C2 counterexample: on a buffered on-sync state the first fetch
returns 39 bundles while the immediately following fetch, with no
notification delivered in between, returns zero bundles: the two calls
do not yield the same bundle contents. -/
theorem c2_counterexample_second_fetch_differs :
    (fetch_metric_bundles {} 5 stBuffered).map (fun r => r.1.length) = some 39
    ∧ ((fetch_metric_bundles {} 5 stBuffered).bind
          (fun r => fetch_metric_bundles {} 6 r.2)).map (fun r => r.1.length)
        = some 0 :=
  ⟨rfl, rfl⟩

/-- C2 amended: fetch_metric_bundles drains the buffer, so after any
successful call an immediately following call returns the empty bundle
list; the two calls agree exactly when the first one already returned
the empty list. -/
theorem c2_amended_second_fetch_empty (cfg : PluginConfig) (now now2 : Int)
    (st : OcState) (l1 : List GnmiMetricBundle) (st1 : OcState)
    (h : fetch_metric_bundles cfg now st = some (l1, st1)) :
    (fetch_metric_bundles cfg now2 st1).map (fun r => r.1) = some [] := by
  have hbase : st1.base = checkout st.base :=
    fetch_base_eq_checkout cfg now st l1 st1 h
  simp only [fetch_metric_bundles]
  have h2 : (checkout (clear_all_tables st1).base).update_list = [] := by
    show (checkout st1.base).update_list = []
    rw [hbase]
    exact checkout_checkout_update_list st.base
  rw [if_pos h2]
  rfl

/-- The state a fetch on the empty plugin state leaves behind. -/
def ocAfterEmpty : OcState := { base := checkout {} }

theorem c2_amended_witness :
    (fetch_metric_bundles {} 1 ocAfterEmpty).map (fun r => r.1) = some [] :=
  c2_amended_second_fetch_empty {} 0 1 {} [] ocAfterEmpty rfl

/-- The path of an in-octets counter leaf. -/
def xpInOctets : GnmiPath :=
  { elem := [
      { name := "interfaces", key := [] },
      { name := "interface", key := [("name", "eth0")] },
      { name := "state", key := [] },
      { name := "counters", key := [] },
      { name := "in-octets", key := [] } ]
    origin := "openconfig"
    target := none }

/-- A notification whose in-octets value is a non-numeric string, so that
int() on it raises ValueError. -/
def nfBadCast : Notification :=
  { timestamp := 12
    pfx := { elem := [], origin := "", target := none }
    update := [ { path := xpInOctets, val := .str "abc" } ] }

/-- An on-sync OcInterfaces state buffering the bad-cast notification. -/
def stBadCast : OcState := { base := { buffer := [nfBadCast], on_sync := true } }

/-- The claim-side condition under which no int() cast of update_tables
can fail: every metric leaf of a matching path carries a castable value. -/
def castOk (u : GnmiUpdate) : Bool :=
  let path_str := String.join u.path
  let leaf := u.path.getLastD ""
  if strStartsWith path_str "interfacesinterfacestate" then
    if leaf ∈ ifaceLabelSet then true
    else if leaf ∈ ifaceMetricSet then (pyIntOpt u.val).isSome
    else true
  else if strStartsWith path_str "interfacesinterfacesubinterfacessubinterfacestate" then
    if leaf ∈ subifaceLabelSet then true
    else if leaf ∈ subifaceMetricSet then (pyIntOpt u.val).isSome
    else true
  else true

/-- C3 counterexample: the bad-cast update aborts the whole render (the
embedded fetch returns none where the Python render raises ValueError)
although the drained update list is non-empty, so no bundle list is
returned. -/
theorem c3_counterexample_cast_aborts_render :
    fetch_metric_bundles {} 7 stBadCast = none
    ∧ (checkout stBadCast.base).update_list ≠ [] :=
  ⟨rfl, by decide⟩

theorem updateTablesStep_isSome (tabs : IfaceTable × IfaceTable) (u : GnmiUpdate)
    (h : castOk u = true) : (updateTablesStep tabs u).isSome := by
  obtain ⟨it, st2⟩ := tabs
  by_cases h1 : strStartsWith (String.join u.path) "interfacesinterfacestate" = true
  · by_cases h2 : u.path.getLast?.getD "" ∈ ifaceLabelSet
    · simp [updateTablesStep, h1, h2]
    · by_cases h3 : u.path.getLast?.getD "" ∈ ifaceMetricSet
      · simp only [castOk, List.getLastD_eq_getLast?, if_pos h1, if_neg h2,
          if_pos h3] at h
        simp only [updateTablesStep, List.getLastD_eq_getLast?, if_pos h1, if_neg h2,
          if_pos h3]
        obtain ⟨v, hv⟩ := Option.isSome_iff_exists.mp h
        rw [hv]
        simp
      · simp [updateTablesStep, h1, h2, h3]
  · by_cases h1b : strStartsWith (String.join u.path)
        "interfacesinterfacesubinterfacessubinterfacestate" = true
    · by_cases h2 : u.path.getLast?.getD "" ∈ subifaceLabelSet
      · simp [updateTablesStep, h1, h1b, h2]
      · by_cases h3 : u.path.getLast?.getD "" ∈ subifaceMetricSet
        · simp only [castOk, List.getLastD_eq_getLast?, if_neg h1, if_pos h1b,
            if_neg h2, if_pos h3] at h
          simp only [updateTablesStep, List.getLastD_eq_getLast?, if_neg h1, if_pos h1b,
            if_neg h2, if_pos h3]
          obtain ⟨v, hv⟩ := Option.isSome_iff_exists.mp h
          rw [hv]
          simp
        · simp [updateTablesStep, h1, h1b, h2, h3]
    · simp [updateTablesStep, h1, h1b]

theorem update_tables_isSome (l : List GnmiUpdate) (tabs : IfaceTable × IfaceTable)
    (h : ∀ u ∈ l, castOk u = true) : (update_tables l tabs).isSome := by
  induction l generalizing tabs with
  | nil => simp [update_tables]
  | cons u rest ih =>
    have hu := h u (by simp)
    obtain ⟨tabs2, htabs⟩ :=
      Option.isSome_iff_exists.mp (updateTablesStep_isSome tabs u hu)
    simp only [update_tables, List.foldlM_cons, htabs, Option.bind_some]
    exact ih tabs2 (fun u2 hu2 => h u2 (by simp [hu2]))

/-- C3 amended: an unknown leaf is skipped and a missing path key
degrades to the not_available sentinel, neither aborts the render; but a
metric-leaf value that fails the int() cast raises and aborts it. Under
the cast-success condition on every drained update, the render always
returns a bundle list. -/
theorem c3_amended_render_total_under_casts (cfg : PluginConfig) (now : Int)
    (st : OcState)
    (h : ∀ u ∈ (checkout st.base).update_list, castOk u = true) :
    (fetch_metric_bundles cfg now st).isSome := by
  simp only [fetch_metric_bundles]
  by_cases hu : (checkout (clear_all_tables st).base).update_list = []
  · rw [if_pos hu]
    rfl
  · rw [if_neg hu]
    have h3 := update_tables_isSome ((checkout (clear_all_tables st).base).update_list)
      (build_tables (checkout (clear_all_tables st).base).update_list
        (clear_all_tables st).iface_table (clear_all_tables st).subiface_table) h
    obtain ⟨tabs2, htabs⟩ := Option.isSome_iff_exists.mp h3
    rw [htabs]
    rfl

theorem c3_amended_witness :
    (fetch_metric_bundles {} 5 stBuffered).isSome :=
  c3_amended_render_total_under_casts {} 5 stBuffered (by decide)

/-! ## C4 -/

/-- The claim-side cardinality of the device-name set of one plugin
response: the number of distinct device names over its valid bundles. -/
def deviceCard (resp : List GnmiMetricBundle) : Nat :=
  ((resp.filter (fun b => b.is_valid)).map (fun b => b.device_name)).dedup.length

theorem setAdd_nodup (s : List String) (x : String) (hs : s.Nodup) :
    (setAdd s x).Nodup := by
  unfold setAdd
  by_cases hx : x ∈ s
  · simpa [hx] using hs
  · simp [hx, List.nodup_append, hs]

theorem setAdd_toFinset (s : List String) (x : String) :
    (setAdd s x).toFinset = insert x s.toFinset := by
  unfold setAdd
  by_cases hx : x ∈ s
  · simp only [if_pos hx]
    rw [Finset.insert_eq_self.mpr (List.mem_toFinset.mpr hx)]
  · simp only [if_neg hx, List.toFinset_append, List.toFinset_cons,
      List.toFinset_nil, insert_emptyc_eq]
    rw [Finset.union_comm, Finset.insert_eq]

theorem setAdd_foldl_spec (names : List String) :
    ∀ s : List String, s.Nodup →
      (names.foldl setAdd s).Nodup
        ∧ (names.foldl setAdd s).toFinset = s.toFinset ∪ names.toFinset := by
  induction names with
  | nil =>
    intro s hs
    exact ⟨hs, by simp⟩
  | cons x xs ih =>
    intro s hs
    rw [List.foldl_cons]
    obtain ⟨hn, hf⟩ := ih (setAdd s x) (setAdd_nodup s x hs)
    refine ⟨hn, ?_⟩
    rw [hf, setAdd_toFinset, List.toFinset_cons, Finset.insert_union,
      Finset.union_insert]

theorem setAdd_foldl_length (names : List String) :
    (names.foldl setAdd []).length = names.dedup.length := by
  obtain ⟨hn, hf⟩ := setAdd_foldl_spec names [] (by simp)
  have hcard := List.toFinset_card_of_nodup hn
  rw [hf] at hcard
  simp only [List.toFinset_nil, Finset.empty_union] at hcard
  rw [← hcard, List.card_toFinset]

theorem foldl_processBundle (l : List GnmiMetricBundle) :
    ∀ (s : List String) (t : List (String × GnmiMetricBundle)),
      l.foldl processBundle (s, t)
        = ((l.filter (fun b => b.is_valid)).foldl
              (fun s2 b => setAdd s2 b.device_name) s,
           (l.filter (fun b => b.is_valid)).foldl tableAdd t) := by
  induction l with
  | nil => intro s t; rfl
  | cons b rest ih =>
    intro s t
    by_cases hb : b.is_valid
    · rw [List.foldl_cons, List.filter_cons_of_pos hb, List.foldl_cons,
        List.foldl_cons]
      rw [show processBundle (s, t) b = (setAdd s b.device_name, tableAdd t b) by
        simp [processBundle, hb]]
      exact ih _ _
    · rw [List.foldl_cons, List.filter_cons_of_neg (by simpa using hb)]
      rw [show processBundle (s, t) b = (s, t) by simp [processBundle, hb]]
      exact ih _ _

theorem queryStep_collected_devices (st : CollectorState)
    (resp : List GnmiMetricBundle) (h : pluginAccepted resp = true) :
    (queryStep st resp).collected_devices = deviceCard resp := by
  simp only [queryStep, if_pos h]
  rw [foldl_processBundle]
  show ((resp.filter (fun b => b.is_valid)).foldl
      (fun s2 b => setAdd s2 b.device_name) []).length = _
  rw [← List.foldl_map, setAdd_foldl_length]
  rfl

theorem foldl_queryStep_collected_devices (resps : List (List GnmiMetricBundle)) :
    ∀ st : CollectorState,
      (resps.foldl queryStep st).collected_devices
        = ((resps.filter pluginAccepted).map deviceCard).getLastD
            st.collected_devices := by
  induction resps with
  | nil => intro st; rfl
  | cons r rest ih =>
    intro st
    rw [List.foldl_cons]
    by_cases hr : pluginAccepted r
    · rw [ih, List.filter_cons_of_pos hr, List.map_cons, List.getLastD_cons]
      congr 1
      exact queryStep_collected_devices st r hr
    · rw [ih, List.filter_cons_of_neg (by simpa using hr)]
      congr 1
      simp [queryStep, hr]

/-- One valid single-metric gauge bundle of device dev1. -/
def bDev1 : GnmiMetricBundle :=
  { type := .GAUGE, device_name := "dev1", metric_name := "m1" }

/-- One valid single-metric gauge bundle of device dev2. -/
def bDev2 : GnmiMetricBundle :=
  { type := .GAUGE, device_name := "dev2", metric_name := "m2" }

/-- C4 counterexample: with two accepted plugins on different devices the
device-name set over all accepted bundles has two elements, but the
collector reports one: the counter is reassigned per plugin, so only the
last plugin contributes. -/
theorem c4_counterexample_two_plugins :
    (query_plugins {} [[bDev1], [bDev2]]).collected_devices = 1
    ∧ ((acceptedValidBundles [[bDev1], [bDev2]]).map
          (fun b => b.device_name)).dedup.length = 2 :=
  ⟨rfl, rfl⟩

/-- C4 amended: after the per-scrape plugin query, collected_devices
equals the cardinality of the device-name set of the last accepted
plugin response alone (zero when no response is accepted), not of all
accepted bundles. -/
theorem c4_amended_last_plugin_only (st : CollectorState)
    (resps : List (List GnmiMetricBundle)) :
    (query_plugins st resps).collected_devices
      = ((resps.filter pluginAccepted).map deviceCard).getLastD 0 := by
  unfold query_plugins
  rw [foldl_queryStep_collected_devices]

/-! ## C6 -/

theorem tableAdd_lookup_other (t : List (String × GnmiMetricBundle))
    (b : GnmiMetricBundle) (n : String) (hb : b.metric_name ≠ n) :
    assocLookup n (tableAdd t b) = assocLookup n t := by
  unfold tableAdd
  cases hm : assocLookup b.metric_name t with
  | none =>
    cases hn : assocLookup n t with
    | none =>
      rw [assocLookup_append_none _ _ _ hn]
      simp [assocLookup, hb]
    | some v => rw [assocLookup_append_some _ _ _ _ hn]
  | some e => exact assocLookup_dictSet_ne _ _ _ _ hb

theorem tableAdd_lookup_insert (t : List (String × GnmiMetricBundle))
    (b : GnmiMetricBundle) (n : String)
    (h0 : assocLookup n t = none) (hb : b.metric_name = n) :
    assocLookup n (tableAdd t b) = some b := by
  subst hb
  unfold tableAdd
  rw [h0, assocLookup_append_none _ _ _ h0]
  simp [assocLookup]

theorem tableAdd_lookup_extend (t : List (String × GnmiMetricBundle))
    (b : GnmiMetricBundle) (n : String) (e : GnmiMetricBundle)
    (h0 : assocLookup n t = some e) (hb : b.metric_name = n) :
    assocLookup n (tableAdd t b) = some { e with metrics := e.metrics ++ b.metrics } := by
  subst hb
  unfold tableAdd
  rw [h0]
  exact assocLookup_dictSet_self _ _ _

theorem tableAdd_foldl_other (l : List GnmiMetricBundle) (n : String)
    (h : ∀ b ∈ l, b.metric_name ≠ n) :
    ∀ t, assocLookup n (l.foldl tableAdd t) = assocLookup n t := by
  induction l with
  | nil => intro t; rfl
  | cons b rest ih =>
    intro t
    rw [List.foldl_cons, ih (fun b2 hb2 => h b2 (by simp [hb2])),
      tableAdd_lookup_other t b n (h b (by simp))]

theorem foldl_queryStep_bundle_table (resps : List (List GnmiMetricBundle)) :
    ∀ st : CollectorState,
      (resps.foldl queryStep st).bundle_table
        = (acceptedValidBundles resps).foldl tableAdd st.bundle_table := by
  induction resps with
  | nil => intro st; rfl
  | cons r rest ih =>
    intro st
    rw [List.foldl_cons, ih]
    by_cases hr : pluginAccepted r
    · have hA : acceptedValidBundles (r :: rest)
          = r.filter (fun b => b.is_valid) ++ acceptedValidBundles rest := by
        simp [acceptedValidBundles, List.filter_cons_of_pos hr]
      rw [hA, List.foldl_append]
      congr 1
      simp only [queryStep, if_pos hr]
      rw [foldl_processBundle]
    · have hA : acceptedValidBundles (r :: rest) = acceptedValidBundles rest := by
        simp [acceptedValidBundles, List.filter_cons_of_neg (by simpa using hr)]
      rw [hA]
      congr 1
      simp [queryStep, hr]

/-- C6: when exactly two accepted valid bundles of a scrape share a
metric name, the merged table entry for that name holds the ordered
concatenation of the two metric lists: the first occurrence inserts the
bundle, the second appends its metrics. -/
theorem c6_duplicate_metric_names_concatenate (st : CollectorState)
    (resps : List (List GnmiMetricBundle)) (n : String)
    (b1 b2 : GnmiMetricBundle) (l1 l2 l3 : List GnmiMetricBundle)
    (hsplit : acceptedValidBundles resps = l1 ++ b1 :: (l2 ++ b2 :: l3))
    (hn1 : b1.metric_name = n) (hn2 : b2.metric_name = n)
    (hl1 : ∀ b ∈ l1, b.metric_name ≠ n)
    (hl2 : ∀ b ∈ l2, b.metric_name ≠ n)
    (hl3 : ∀ b ∈ l3, b.metric_name ≠ n)
    (hinit : st.bundle_table = []) :
    (assocLookup n (query_plugins st resps).bundle_table).map (fun e => e.metrics)
      = some (b1.metrics ++ b2.metrics) := by
  have htab : (query_plugins st resps).bundle_table
      = (acceptedValidBundles resps).foldl tableAdd [] := by
    unfold query_plugins
    rw [foldl_queryStep_bundle_table]
    show (acceptedValidBundles resps).foldl tableAdd st.bundle_table
      = (acceptedValidBundles resps).foldl tableAdd []
    rw [hinit]
  rw [htab, hsplit, List.foldl_append, List.foldl_cons, List.foldl_append,
    List.foldl_cons]
  have e1 : assocLookup n (l1.foldl tableAdd
      ([] : List (String × GnmiMetricBundle))) = none := by
    rw [tableAdd_foldl_other l1 n hl1]
    rfl
  have e2 := tableAdd_lookup_insert _ b1 n e1 hn1
  have e3 : assocLookup n
      (l2.foldl tableAdd (tableAdd (l1.foldl tableAdd []) b1)) = some b1 := by
    rw [tableAdd_foldl_other l2 n hl2]
    exact e2
  have e4 := tableAdd_lookup_extend _ b2 n b1 e3 hn2
  rw [tableAdd_foldl_other l3 n hl3, e4]
  rfl

/-- A valid in-octets counter bundle of device dev1. -/
def bOct1 : GnmiMetricBundle :=
  { type := .COUNTER, device_name := "dev1", metric_name := "gnmi_iface_in_octets"
    metrics := [{ labelval := [], val := .int 1, ts := 0 }] }

/-- A valid in-octets counter bundle of device dev2. -/
def bOct2 : GnmiMetricBundle :=
  { type := .COUNTER, device_name := "dev2", metric_name := "gnmi_iface_in_octets"
    metrics := [{ labelval := [], val := .int 2, ts := 0 }] }

theorem c6_witness :
    (assocLookup "gnmi_iface_in_octets"
        (query_plugins {} [[bOct1], [bOct2]]).bundle_table).map (fun e => e.metrics)
      = some (bOct1.metrics ++ bOct2.metrics) :=
  c6_duplicate_metric_names_concatenate {} [[bOct1], [bOct2]]
    "gnmi_iface_in_octets" bOct1 bOct2 [] [] [] rfl rfl rfl
    (by simp) (by simp) (by simp) rfl

end GnmiExporter
